import Mathlib

/-!
Shallow embedding of the specification/filter-based data-access layer of the
black-clover student-registration backend: the `Specification` / `Filter`
pattern in `app/crud/filter.py`, the `StudentRepository` in
`app/crud/student.py`, and the service layer in `app/services/student.py`
and `app/services/user.py`.

Storage is modelled as a list of rows; a session is the pair of that list
and an injected commit outcome (`commitOk`), which stands for the only
storage-side nondeterminism the claims need (a driver failure at commit
time).  Reads are deterministic and cannot fail in the model.  Python
exceptions become an explicit error type threaded through `Except`.
-/

/-- Magic affinity enumeration (`app/schemas/magic_affinity.py`). -/
inductive MagicAffinity
  | darkness | light | fire | water | wind | earth
  deriving Repr, DecidableEq

/-- Grimoire cover enumeration (`app/schemas/grimoire.py`). -/
inductive Grimoire
  | sincerity | hope | love | goodFortune | desperation
  deriving Repr, DecidableEq

/-- The `Student` ORM row (`app/models/student.py`): columns `id`,
`user_id`, `first_name`, `last_name`, `identification`, `age`,
`magic_affinity`, `grimoire_cover`, `is_active`, `created_at`,
`updated_at`.  Timestamps are modelled as natural numbers; `updated_at`
is nullable. -/
structure Student where
  id : Nat
  user_id : Nat
  first_name : String
  last_name : String
  identification : String
  age : Nat
  magic_affinity : MagicAffinity
  grimoire_cover : Grimoire
  is_active : Bool
  created_at : Nat
  updated_at : Option Nat
  deriving Repr, DecidableEq

/-- The `User` ORM row (`app/models/user.py`); only the columns the
filters touch are needed (`id`, `username`, `email`), the remaining
scalar columns are carried in `password` / `is_active` for shape. -/
structure User where
  id : Nat
  username : String
  email : String
  password : String
  is_active : Bool
  deriving Repr, DecidableEq

/-- The `StudentUpdate` request schema (`app/schemas/student.py`): all
fields optional; `none` models a field that was not explicitly set, so
that `student.dict(exclude_unset=True)` is exactly the set of `some`
fields. -/
structure StudentUpdate where
  username : Option String := none
  email : Option String := none
  first_name : Option String := none
  last_name : Option String := none
  password : Option String := none
  magic_affinity : Option MagicAffinity := none
  deriving Repr, DecidableEq

/-- SQLAlchemy error kinds the embedded code paths can surface:
`NoResultFound` / `MultipleResultsFound` from `ScalarResult.one()`,
`UnmappedInstanceError` from `Session.delete` on a non-ORM object
(`None`), and a generic driver failure at commit time. -/
inductive SAErr
  | noResultFound
  | multipleResultsFound
  | unmappedInstanceError
  | operationalError
  deriving Repr, DecidableEq

/-- Message text of a SQLAlchemy error, used when a repository wraps it
as `DatabaseException(str(exc))`. -/
def SAErr.str : SAErr → String
  | .noResultFound => "No row was found when one was required"
  | .multipleResultsFound =>
      "Multiple rows were found when exactly one was required"
  | .unmappedInstanceError => "Class NoneType is not mapped"
  | .operationalError => "connection failure at commit"

/-- Exception universe of the embedded layers.  `DatabaseException`,
`ServiceException` and `NotFoundException` are modelled from the spec
error taxonomy (their defining module `app/core/security/exceptions.py`
is not under src/): each is an exception kind wrapping a message string.
`valueError` and `typeError` are the built-in Python exceptions raised
by `UniqueFilter.filter` and by iterating over `None`. -/
inductive Err
  | sqlalchemyError (e : SAErr)
  | valueError (msg : String)
  | typeError (msg : String)
  | databaseException (msg : String)
  | serviceException (msg : String)
  | notFoundException (msg : String)
  deriving Repr, DecidableEq

/-- Is the outcome a raised `DatabaseException`? -/
def raisedDatabaseException {α : Type} : Except Err α → Bool
  | .error (.databaseException _) => true
  | _ => false

/-- Modelled from the spec: `IdSpecification(value: PositiveInteger)`
(`app/crud/specification.py` is not under src/); an immutable carrier of
one scalar lookup value. -/
structure IdSpecification where
  value : Nat
  deriving Repr, DecidableEq

/-- Modelled from the spec: `UsernameSpecification(value: String)` and
`EmailSpecification(value: String)` (`app/crud/specification.py` is not
under src/), the two specification subtypes `UniqueFilter.filter`
accepts. -/
inductive UniqueSpecification
  | usernameSpecification (value : String)
  | emailSpecification (value : String)
  deriving Repr, DecidableEq

/-- The wrapped scalar of a unique-lookup specification (`spec.value`). -/
def UniqueSpecification.value : UniqueSpecification → String
  | .usernameSpecification v => v
  | .emailSpecification v => v

/-- A built `SELECT * FROM users WHERE <field> = <value>` statement, as
assembled by `UniqueFilter.filter` before the session is entered. -/
structure UserStmt where
  field : String
  value : String
  deriving Repr, DecidableEq

/-- Row predicate of a unique-lookup statement: compares the named
column with the statement value (only statements with
`field ∈ {username, email}` are ever built by the code). -/
def UserStmt.pred (stmt : UserStmt) (u : User) : Bool :=
  if stmt.field == "username" then u.username == stmt.value
  else u.email == stmt.value

/-- `ScalarResult.one()`: exactly one row is the only non-raising
outcome; zero rows raise `NoResultFound` and several rows raise
`MultipleResultsFound`, both SQLAlchemy errors. -/
def scalarsOne (db : List User) (stmt : UserStmt) : Except Err User :=
  match db.filter stmt.pred with
  | [] => .error (.sqlalchemyError .noResultFound)
  | [u] => .ok u
  | _ :: _ :: _ => .error (.sqlalchemyError .multipleResultsFound)

/-- Result of a call to `UniqueFilter.filter`, together with the list of
statements actually executed against the session (the `ValueError`
branch raises before the session is entered, so nothing is executed
there). -/
structure UniqueFilterOutcome where
  result : Except Err User
  executed : List UserStmt
  deriving Repr

namespace UniqueFilter

/-- `UniqueFilter.filter` (`app/crud/filter.py`): branches on `field`
to build the statement (`username` column, `email` column, or raise
`ValueError("Invalid field specified for filtering")`), then enters the
session and runs `scalars(stmt).one()`, re-raising any SQLAlchemy error
unchanged after logging. -/
def filter (db : List User) (spec : UniqueSpecification)
    (field : String := "email") : UniqueFilterOutcome :=
  if field == "username" then
    let stmt : UserStmt := ⟨"username", spec.value⟩
    ⟨scalarsOne db stmt, [stmt]⟩
  else if field == "email" then
    let stmt : UserStmt := ⟨"email", spec.value⟩
    ⟨scalarsOne db stmt, [stmt]⟩
  else
    ⟨.error (.valueError "Invalid field specified for filtering"), []⟩

end UniqueFilter

/-- Truthiness of the optional `field` argument of
`IndexFilter.filter` (`field: str = None`, tested with `if field:`,
so both `None` and the empty string are falsy). -/
def fieldTruthy : Option String → Bool
  | none => false
  | some s => s != ""

namespace IndexFilter

/-- `IndexFilter.filter` (`app/crud/filter.py`), generic over the row
kind through its id accessor: with a truthy `field` it runs
`session.scalar(select(model).where(model.id == spec.value))`, which
yields the first matching row or `None`; otherwise it runs
`session.get(model, spec.value)`, the direct primary-key fetch, which
yields the row with that key or `None`. -/
def filter {α : Type} (getId : α → Nat) (db : List α)
    (spec : IdSpecification) (field : Option String) : Option α :=
  if fieldTruthy field then
    (db.filter (fun r => getId r == spec.value)).head?
  else
    db.find? (fun r => getId r == spec.value)

end IndexFilter

/-- Driver commit: succeeds and persists the pending state, or raises a
SQLAlchemy error leaving the stored rows unchanged.  The `commitOk` flag
is the injected driver outcome for the one commit an operation issues. -/
def sessionCommit (commitOk : Bool) (db : List Student) :
    Except Err (List Student) :=
  if commitOk then .ok db else .error (.sqlalchemyError .operationalError)

/-- `AsyncSession.delete`: deleting `None` (the unmapped object the code
passes when the preceding read found nothing) raises
`UnmappedInstanceError`, a SQLAlchemy error; deleting a row removes the
rows with its primary key. -/
def sessionDelete (db : List Student) (obj : Option Student) :
    Except Err (List Student) :=
  match obj with
  | none => .error (.sqlalchemyError .unmappedInstanceError)
  | some s => .ok (db.filter (fun r => !(r.id == s.id)))

/-- Flushing a mutated, session-tracked row at commit: the UPDATE is by
the row's primary key, so every stored row with that key becomes the
mutated row. -/
def commitUpdate (db : List Student) (s : Student) : List Student :=
  db.map (fun r => if r.id == s.id then s else r)

/-- The field loop of `StudentRepository.update_student`
(`app/crud/student.py`): for every field of the encoded existing row —
the ORM `Student` columns `id`, `user_id`, `first_name`, `last_name`,
`identification`, `age`, `magic_affinity`, `grimoire_cover`,
`is_active`, `created_at`, `updated_at` — if that field is among the
explicitly-set patch fields (`student.dict(exclude_unset=True)`, whose
possible keys are `username`, `email`, `first_name`, `last_name`,
`password`, `magic_affinity`), it is overwritten with the patch value;
the intersection is `first_name`, `last_name`, `magic_affinity`.  The
`password` re-hash branch is dead for `Student` (no `password` column on
the ORM row), and `updated_at` is stamped with the current time
unconditionally at its iteration. -/
def applyUpdateLoop (s : Student) (patch : StudentUpdate) (now : Nat) :
    Student :=
  { s with
    first_name := patch.first_name.getD s.first_name
    last_name := patch.last_name.getD s.last_name
    magic_affinity := patch.magic_affinity.getD s.magic_affinity
    updated_at := some now }

namespace StudentRepository

/-- `StudentRepository.read_by_id` (`app/crud/student.py`): delegates to
the index filter with the `field` argument left at its `None` default
(the primary-key fetch path); a SQLAlchemy error would be wrapped as
`DatabaseException`, but reads are deterministic in the model, so the
result is the found row or `none` — absence is not an error here. -/
def read_by_id (db : List Student) (spec : IdSpecification) :
    Except Err (Option Student) :=
  .ok (IndexFilter.filter Student.id db spec none)

/-- `StudentRepository.read_students` (`app/crud/student.py`):
`select(Student).offset(offset).limit(limit)` — skip `offset` stored
rows in natural order and return at most `limit` of the rest. -/
def read_students (db : List Student) (offset limit : Nat) :
    Except Err (List Student) :=
  .ok ((db.drop offset).take limit)

/-- `StudentRepository.create_student` (`app/crud/student.py`):
`session.add` the record, commit (the autoincrement sequence value
`nextId` becomes the row id at flush); a SQLAlchemy commit failure is
wrapped as `DatabaseException` and the stored rows are unchanged.  On
success the code re-reads by the newly assigned id through
`read_by_id`, re-wrapping a `DatabaseException` from the read, and
returns the re-read row together with the new stored state. -/
def create_student (db : List Student) (commitOk : Bool) (nextId : Nat)
    (student : Student) : Except Err (Option Student × List Student) :=
  let assigned : Student := { student with id := nextId }
  match sessionCommit commitOk (db ++ [assigned]) with
  | .error (.sqlalchemyError sa) => .error (.databaseException sa.str)
  | .error e => .error e
  | .ok db2 =>
    match read_by_id db2 ⟨nextId⟩ with
    | .error (.databaseException m) => .error (.databaseException m)
    | .error e => .error e
    | .ok r => .ok (r, db2)

/-- `StudentRepository.update_student` (`app/crud/student.py`): reads
the existing row through `read_by_id` (re-wrapping a
`DatabaseException`); when the read returns `None`,
`jsonable_encoder(None)` is `None` and the `for field in obj_data` loop
raises `TypeError` (uncaught).  Otherwise the field loop
(`applyUpdateLoop`) mutates the tracked row, `session.add` + `commit`
persist it (this commit is not wrapped in a try block, so a SQLAlchemy
error propagates raw), and the row is re-read by id and returned with
the new stored state. -/
def update_student (db : List Student) (commitOk : Bool)
    (studentId : IdSpecification) (student : StudentUpdate) (now : Nat) :
    Except Err (Option Student × List Student) :=
  match read_by_id db studentId with
  | .error (.databaseException m) => .error (.databaseException m)
  | .error e => .error e
  | .ok none => .error (.typeError "NoneType object is not iterable")
  | .ok (some found) =>
    let updated : Student := applyUpdateLoop found student now
    match sessionCommit commitOk (commitUpdate db updated) with
    | .error e => .error e
    | .ok db2 =>
      match read_by_id db2 studentId with
      | .error (.databaseException m) => .error (.databaseException m)
      | .error e => .error e
      | .ok r => .ok (r, db2)

/-- `StudentRepository.delete_student` (`app/crud/student.py`): reads
the existing row through `read_by_id` (re-wrapping a
`DatabaseException`); then, in one try block, `session.delete` on the
read result (which is `None` when the row is absent, raising
`UnmappedInstanceError`) followed by `commit`; any SQLAlchemy error
there triggers a rollback (stored rows unchanged) and is wrapped as
`DatabaseException`.  The only non-raising path returns `True`. -/
def delete_student (db : List Student) (commitOk : Bool)
    (studentId : IdSpecification) : Except Err (Bool × List Student) :=
  match read_by_id db studentId with
  | .error (.databaseException m) => .error (.databaseException m)
  | .error e => .error e
  | .ok found =>
    match sessionDelete db found with
    | .error (.sqlalchemyError sa) => .error (.databaseException sa.str)
    | .error e => .error e
    | .ok dbDel =>
      match sessionCommit commitOk dbDel with
      | .error (.sqlalchemyError sa) => .error (.databaseException sa.str)
      | .error e => .error e
      | .ok db2 => .ok (true, db2)

end StudentRepository

/-- `StudentResponse` as the projection target of `model_to_response`
(`app/schemas/student.py`): pydantic `from_orm` reads the named
attributes off the ORM row, so the embedding carries the response
fields that the ORM `Student` row defines. -/
structure StudentResponse where
  id : Nat
  first_name : String
  last_name : String
  magic_affinity : MagicAffinity
  is_active : Bool
  created_at : Nat
  updated_at : Option Nat
  deriving Repr, DecidableEq

/-- Attribute projection of an ORM `Student` row onto
`StudentResponse` (pydantic `from_orm`). -/
def studentToResponse (s : Student) : StudentResponse :=
  ⟨s.id, s.first_name, s.last_name, s.magic_affinity, s.is_active,
   s.created_at, s.updated_at⟩

/-- `UserResponse` as the projection target of `model_to_response`
(`app/schemas/user.py`), restricted to the columns the embedded `User`
row carries. -/
structure UserResponse where
  id : Nat
  username : String
  email : String
  is_active : Bool
  deriving Repr, DecidableEq

/-- Attribute projection of an ORM `User` row onto `UserResponse`
(pydantic `from_orm`). -/
def userToResponse (u : User) : UserResponse :=
  ⟨u.id, u.username, u.email, u.is_active⟩

/-- `model_to_response` (`app/services/__init__.py`): returns `None`
for a falsy model, otherwise the `from_orm` projection of the row. -/
def model_to_response {α β : Type} (fromOrm : α → β) :
    Option α → Option β
  | none => none
  | some m => some (fromOrm m)

/-- The delete confirmation dict
`{"ok": deleted, "deleted_at": datetime.now()}` returned by
`StudentService.delete_student`. -/
structure DeleteResponse where
  ok : Bool
  deleted_at : Nat
  deriving Repr, DecidableEq

namespace StudentService

/-- `StudentService.get_student_by_id` (`app/services/student.py`),
as a function of the repository call outcome: a `DatabaseException`
is re-raised as `ServiceException` with the same message; a `None`
read result raises `NotFoundException`; otherwise the row is projected
to a response. -/
def get_student_by_id (studentId : Nat)
    (repoResult : Except Err (Option Student)) :
    Except Err (Option StudentResponse) :=
  match repoResult with
  | .error (.databaseException m) => .error (.serviceException m)
  | .error e => .error e
  | .ok none => .error (.notFoundException
      ("Student with id " ++ toString studentId ++
       " not found in the system."))
  | .ok (some s) => .ok (model_to_response studentToResponse (some s))

/-- `StudentService.get_all_students` (`app/services/student.py`):
wraps a repository `DatabaseException` into `ServiceException`,
otherwise projects every row to a response. -/
def get_all_students (repoResult : Except Err (List Student)) :
    Except Err (List (Option StudentResponse)) :=
  match repoResult with
  | .error (.databaseException m) => .error (.serviceException m)
  | .error e => .error e
  | .ok students =>
      .ok (students.map
        (fun s => model_to_response studentToResponse (some s)))

/-- `StudentService.create_student` (`app/services/student.py`): wraps
a repository `DatabaseException` into `ServiceException`, otherwise
projects the created row to a response. -/
def create_student (repoResult : Except Err (Option Student)) :
    Except Err (Option StudentResponse) :=
  match repoResult with
  | .error (.databaseException m) => .error (.serviceException m)
  | .error e => .error e
  | .ok created => .ok (model_to_response studentToResponse created)

/-- `StudentService.update_student` (`app/services/student.py`): wraps
a repository `DatabaseException` into `ServiceException`, otherwise
projects the updated row to a response. -/
def update_student (repoResult : Except Err (Option Student)) :
    Except Err (Option StudentResponse) :=
  match repoResult with
  | .error (.databaseException m) => .error (.serviceException m)
  | .error e => .error e
  | .ok updated => .ok (model_to_response studentToResponse updated)

/-- `StudentService.delete_student` (`app/services/student.py`): wraps
a repository `DatabaseException` into `ServiceException`, otherwise
returns the confirmation dict with the current time. -/
def delete_student (now : Nat) (repoResult : Except Err Bool) :
    Except Err DeleteResponse :=
  match repoResult with
  | .error (.databaseException m) => .error (.serviceException m)
  | .error e => .error e
  | .ok deleted => .ok ⟨deleted, now⟩

end StudentService

namespace UserService

/-- `UserService.get_user_by_id` (`app/services/user.py`): identical
translation pattern to the student service — `DatabaseException`
becomes `ServiceException` with the same message, a `None` read result
raises `NotFoundException`, a found row is projected to a response. -/
def get_user_by_id (userId : Nat)
    (repoResult : Except Err (Option User)) :
    Except Err (Option UserResponse) :=
  match repoResult with
  | .error (.databaseException m) => .error (.serviceException m)
  | .error e => .error e
  | .ok none => .error (.notFoundException
      ("User with id " ++ toString userId ++
       " not found in the system."))
  | .ok (some u) => .ok (model_to_response userToResponse (some u))

end UserService

/-- Sample rows used by concrete witnesses. -/
def mkStudent (i : Nat) : Student :=
  ⟨i, 1, "Asta", "Staria", "A00" ++ toString i, 15, .darkness,
   .desperation, true, 10, some 20⟩

/-- Sample stored table with five students (ids 1 to 5). -/
def sampleDb : List Student :=
  [mkStudent 1, mkStudent 2, mkStudent 3, mkStudent 4, mkStudent 5]

/-- Sample user row used by concrete witnesses. -/
def yunoUser : User := ⟨1, "yuno123", "yuno@mail.com", "hashed", true⟩

/-- Second sample user row, sharing no unique column with `yunoUser`. -/
def nellUser : User := ⟨2, "nell456", "nell@mail.com", "hashed2", true⟩

theorem find?_cons_if {α : Type} (p : α → Bool) (a : α) (l : List α) :
    (a :: l).find? p = if p a then some a else l.find? p := by
  cases h : p a <;> simp [List.find?_cons, h]

theorem filter_cons_if {α : Type} (p : α → Bool) (a : α) (l : List α) :
    (a :: l).filter p = if p a then a :: l.filter p else l.filter p := by
  cases h : p a <;> simp [List.filter_cons, h]

theorem list_find?_eq_head?_filter {α : Type} (p : α → Bool)
    (l : List α) : l.find? p = (l.filter p).head? := by
  induction l with
  | nil => rfl
  | cons a t ih =>
      rw [find?_cons_if, filter_cons_if]
      cases h : p a with
      | true => simp
      | false => simpa using ih

theorem commitUpdate_cons (a : Student) (t : List Student) (u : Student) :
    commitUpdate (a :: t) u
      = (if a.id == u.id then u else a) :: commitUpdate t u := rfl

theorem list_find?_append_singleton {α : Type} (p : α → Bool)
    (l : List α) (a : α) (h : ∀ x ∈ l, p x = false) (ha : p a = true) :
    (l ++ [a]).find? p = some a := by
  induction l with
  | nil => simp [List.find?_cons, ha]
  | cons b t ih =>
      have hb : p b = false := h b (by simp)
      simp only [List.cons_append, List.find?_cons, hb]
      exact ih (fun x hx => h x (by simp [hx]))

theorem find?_commitUpdate (db : List Student) (v : Nat) (s u : Student)
    (hfind : db.find? (fun r => r.id == v) = some s) (hu : u.id = s.id) :
    (commitUpdate db u).find? (fun r => r.id == v) = some u := by
  have hsv : s.id = v := by
    have hs := List.find?_some hfind
    simpa using hs
  have huv : (u.id == v) = true := by simp [hu, hsv]
  induction db with
  | nil => simp [List.find?] at hfind
  | cons a t ih =>
      rw [commitUpdate_cons]
      by_cases hav : a.id = v
      · have h1 : (a.id == u.id) = true := by simp [hav, hu, hsv]
        rw [if_pos h1, find?_cons_if, if_pos huv]
      · have h2 : (a.id == v) = false := by simp [hav]
        rw [find?_cons_if, if_neg (by simp [h2])] at hfind
        have h3 : (a.id == u.id) = false := by
          rw [beq_eq_false_iff_ne, hu, hsv]
          exact hav
        rw [if_neg (by simp [h3]), find?_cons_if, if_neg (by simp [h2])]
        exact ih hfind

theorem uniqueFilter_username_eq (db : List User)
    (spec : UniqueSpecification) :
    UniqueFilter.filter db spec "username"
      = ⟨scalarsOne db ⟨"username", spec.value⟩,
         [⟨"username", spec.value⟩]⟩ := rfl

theorem uniqueFilter_email_eq (db : List User)
    (spec : UniqueSpecification) :
    UniqueFilter.filter db spec "email"
      = ⟨scalarsOne db ⟨"email", spec.value⟩,
         [⟨"email", spec.value⟩]⟩ := rfl

theorem scalarsOne_singleton (db : List User) (stmt : UserStmt) (u : User)
    (h : db.filter stmt.pred = [u]) : scalarsOne db stmt = .ok u := by
  unfold scalarsOne
  rw [h]

theorem scalarsOne_nil (db : List User) (stmt : UserStmt)
    (h : db.filter stmt.pred = []) :
    scalarsOne db stmt = .error (.sqlalchemyError .noResultFound) := by
  unfold scalarsOne
  rw [h]

theorem scalarsOne_multi (db : List User) (stmt : UserStmt)
    (u1 u2 : User) (rest : List User)
    (h : db.filter stmt.pred = u1 :: u2 :: rest) :
    scalarsOne db stmt = .error (.sqlalchemyError .multipleResultsFound) := by
  unfold scalarsOne
  rw [h]

/-- C1: for every call to `UniqueFilter.filter` with field `username` or
`email`, if exactly one stored record matches `spec.value` on that field
the call returns that record; with zero matches it raises a storage
error (`NoResultFound`) and with two or more matches it also raises a
storage error (`MultipleResultsFound`) — never a none result. -/
theorem uniqueFilter_exactly_one_semantics (db : List User)
    (spec : UniqueSpecification) (field : String)
    (hf : field = "username" ∨ field = "email") :
    (∀ u, db.filter (UserStmt.pred ⟨field, spec.value⟩) = [u] →
      (UniqueFilter.filter db spec field).result = .ok u)
  ∧ (db.filter (UserStmt.pred ⟨field, spec.value⟩) = [] →
      (UniqueFilter.filter db spec field).result
        = .error (.sqlalchemyError .noResultFound))
  ∧ (∀ u1 u2 rest,
      db.filter (UserStmt.pred ⟨field, spec.value⟩) = u1 :: u2 :: rest →
      (UniqueFilter.filter db spec field).result
        = .error (.sqlalchemyError .multipleResultsFound)) := by
  rcases hf with rfl | rfl
  · refine ⟨?_, ?_, ?_⟩
    · intro u h
      rw [uniqueFilter_username_eq]
      exact scalarsOne_singleton db _ u h
    · intro h
      rw [uniqueFilter_username_eq]
      exact scalarsOne_nil db _ h
    · intro u1 u2 rest h
      rw [uniqueFilter_username_eq]
      exact scalarsOne_multi db _ u1 u2 rest h
  · refine ⟨?_, ?_, ?_⟩
    · intro u h
      rw [uniqueFilter_email_eq]
      exact scalarsOne_singleton db _ u h
    · intro h
      rw [uniqueFilter_email_eq]
      exact scalarsOne_nil db _ h
    · intro u1 u2 rest h
      rw [uniqueFilter_email_eq]
      exact scalarsOne_multi db _ u1 u2 rest h

/-- Witness for C1: in a store holding exactly the user `yuno123`, the
unique filter on field `username` with that value returns the row. -/
theorem uniqueFilter_exactly_one_semantics_witness :
    (UniqueFilter.filter [yunoUser]
       (.usernameSpecification "yuno123") "username").result
      = .ok yunoUser :=
  (uniqueFilter_exactly_one_semantics [yunoUser]
     (.usernameSpecification "yuno123") "username" (Or.inl rfl)).1
    yunoUser (by decide)

/-- C7: a call to `UniqueFilter.filter` with a field outside
`{username, email}` raises `ValueError` with no statement ever executed
against the session (storage untouched). -/
theorem uniqueFilter_invalid_field (db : List User)
    (spec : UniqueSpecification) (field : String)
    (h1 : field ≠ "username") (h2 : field ≠ "email") :
    UniqueFilter.filter db spec field
      = ⟨.error (.valueError "Invalid field specified for filtering"),
         []⟩ := by
  unfold UniqueFilter.filter
  rw [if_neg (by simp [h1]), if_neg (by simp [h2])]

/-- Witness for C7: field `id` is rejected before any query. -/
theorem uniqueFilter_invalid_field_witness :
    UniqueFilter.filter [yunoUser] (.emailSpecification "yuno@mail.com") "id"
      = ⟨.error (.valueError "Invalid field specified for filtering"),
         []⟩ :=
  uniqueFilter_invalid_field [yunoUser] (.emailSpecification "yuno@mail.com")
    "id" (by decide) (by decide)

/-- C10: the behaviour of `UniqueFilter.filter` is determined solely by
the `field` argument and `spec.value`, never by the specification
subtype; `field = "username"` queries the username column and
`field = "email"` the email column, and the omitted field defaults to
`email`. -/
theorem uniqueFilter_value_determines (db : List User)
    (s1 s2 : UniqueSpecification) (field : String)
    (hv : s1.value = s2.value) :
    UniqueFilter.filter db s1 field = UniqueFilter.filter db s2 field
  ∧ (UniqueFilter.filter db s1 "username").executed
      = [⟨"username", s1.value⟩]
  ∧ (UniqueFilter.filter db s1 "email").executed = [⟨"email", s1.value⟩]
  ∧ UniqueFilter.filter db s1 = UniqueFilter.filter db s1 "email" := by
  refine ⟨?_, ?_, ?_, rfl⟩
  · unfold UniqueFilter.filter
    rw [hv]
  · rw [uniqueFilter_username_eq]
  · rw [uniqueFilter_email_eq]

/-- Witness for C10: a `UsernameSpecification` passed with
`field = "email"` behaves exactly like an `EmailSpecification` with the
same value. -/
theorem uniqueFilter_value_determines_witness :
    UniqueFilter.filter [yunoUser, nellUser]
        (.usernameSpecification "yuno@mail.com") "email"
      = UniqueFilter.filter [yunoUser, nellUser]
        (.emailSpecification "yuno@mail.com") "email" :=
  (uniqueFilter_value_determines [yunoUser, nellUser]
     (.usernameSpecification "yuno@mail.com")
     (.emailSpecification "yuno@mail.com") "email" rfl).1

/-- C9: `IndexFilter.filter` returns the same result whether or not the
optional `field` argument is supplied — the select-where-id path and
the direct primary-key fetch coincide, each yielding the single
matching record or none. -/
theorem indexFilter_paths_equivalent {α : Type} (getId : α → Nat)
    (db : List α) (spec : IdSpecification) (f1 f2 : Option String) :
    IndexFilter.filter getId db spec f1 = IndexFilter.filter getId db spec f2
  ∧ IndexFilter.filter getId db spec f1
      = db.find? (fun r => getId r == spec.value)
  ∧ (∀ r, db.find? (fun r => getId r == spec.value) = some r →
      getId r = spec.value ∧ r ∈ db)
  ∧ (db.find? (fun r => getId r == spec.value) = none →
      ∀ r ∈ db, getId r ≠ spec.value) := by
  have key : ∀ f : Option String,
      IndexFilter.filter getId db spec f
        = db.find? (fun r => getId r == spec.value) := by
    intro f
    unfold IndexFilter.filter
    by_cases h : fieldTruthy f = true
    · rw [if_pos h, ← list_find?_eq_head?_filter]
    · rw [if_neg h]
  refine ⟨by rw [key, key], key f1, ?_, ?_⟩
  · intro r hr
    refine ⟨by simpa using List.find?_some hr, List.mem_of_find?_eq_some hr⟩
  · intro hnone r hr hcontra
    have hx := List.find?_eq_none.mp hnone r hr
    simp [hcontra] at hx

/-- Witness for C9: on the five-row sample table, looking up id 3 with a
supplied field and with the field omitted gives the same result. -/
theorem indexFilter_paths_equivalent_witness :
    IndexFilter.filter Student.id sampleDb ⟨3⟩ (some "id")
      = IndexFilter.filter Student.id sampleDb ⟨3⟩ none :=
  (indexFilter_paths_equivalent Student.id sampleDb ⟨3⟩ (some "id") none).1

theorem read_by_id_eq (db : List Student) (spec : IdSpecification) :
    StudentRepository.read_by_id db spec
      = .ok (db.find? (fun r => r.id == spec.value)) := by
  unfold StudentRepository.read_by_id IndexFilter.filter
  rw [if_neg (by simp [fieldTruthy])]

theorem update_student_found (db : List Student)
    (studentId : IdSpecification) (s : Student) (patch : StudentUpdate)
    (now : Nat)
    (hfind : db.find? (fun r => r.id == studentId.value) = some s) :
    StudentRepository.update_student db true studentId patch now
      = .ok (some (applyUpdateLoop s patch now),
             commitUpdate db (applyUpdateLoop s patch now)) := by
  have hread : StudentRepository.read_by_id db studentId = .ok (some s) := by
    rw [read_by_id_eq, hfind]
  have hread2 : StudentRepository.read_by_id
      (commitUpdate db (applyUpdateLoop s patch now)) studentId
      = .ok (some (applyUpdateLoop s patch now)) := by
    rw [read_by_id_eq,
        find?_commitUpdate db studentId.value s (applyUpdateLoop s patch now)
          hfind rfl]
  simp [StudentRepository.update_student, hread, hread2, sessionCommit]

theorem delete_student_missing (db : List Student) (commitOk : Bool)
    (studentId : IdSpecification)
    (hfind : db.find? (fun r => r.id == studentId.value) = none) :
    StudentRepository.delete_student db commitOk studentId
      = .error (.databaseException SAErr.unmappedInstanceError.str) := by
  have hread : StudentRepository.read_by_id db studentId = .ok none := by
    rw [read_by_id_eq, hfind]
  simp [StudentRepository.delete_student, hread, sessionDelete]

theorem delete_student_found (db : List Student) (commitOk : Bool)
    (studentId : IdSpecification) (s : Student)
    (hfind : db.find? (fun r => r.id == studentId.value) = some s) :
    StudentRepository.delete_student db commitOk studentId
      = if commitOk
        then .ok (true, db.filter (fun r => !(r.id == s.id)))
        else .error (.databaseException SAErr.operationalError.str) := by
  have hread : StudentRepository.read_by_id db studentId = .ok (some s) := by
    rw [read_by_id_eq, hfind]
  cases commitOk with
  | true =>
      simp [StudentRepository.delete_student, hread, sessionDelete,
            sessionCommit]
  | false =>
      simp [StudentRepository.delete_student, hread, sessionDelete,
            sessionCommit]

/-- C2 (failing input): with no stored record for id 1, the repository
update does not raise `DatabaseException`: the read step returns `None`
without error, `jsonable_encoder(None)` is `None`, and the field loop
raises an uncaught `TypeError` instead. -/
theorem update_student_missing_id_raises_type_error :
    StudentRepository.update_student [] true ⟨1⟩ {} 5
      = .error (.typeError "NoneType object is not iterable")
  ∧ raisedDatabaseException
      (StudentRepository.update_student [] true ⟨1⟩ {} 5) = false :=
  ⟨rfl, rfl⟩

/-- C3: for an existing id, `read_by_id` followed by `update` with the
empty patch returns a record equal to the original in every field
except `updated_at`, which is stamped with the (later) current time;
in general the update overwrites exactly the fields present on the
existing record that the patch explicitly sets (`first_name`,
`last_name`, `magic_affinity` — the only patch keys that are also ORM
columns), leaves every other column unchanged, and stamps `updated_at`
unconditionally. -/
theorem update_student_empty_patch_frame (db : List Student)
    (studentId : IdSpecification) (s : Student) (now : Nat)
    (hfind : db.find? (fun r => r.id == studentId.value) = some s)
    (hnow : ∀ t, s.updated_at = some t → t < now) :
    (StudentRepository.update_student db true studentId {} now
      = .ok (some { s with updated_at := some now },
             commitUpdate db { s with updated_at := some now }))
  ∧ ({ s with updated_at := some now } : Student).id = s.id
  ∧ ({ s with updated_at := some now } : Student).user_id = s.user_id
  ∧ ({ s with updated_at := some now } : Student).first_name = s.first_name
  ∧ ({ s with updated_at := some now } : Student).last_name = s.last_name
  ∧ ({ s with updated_at := some now } : Student).identification
      = s.identification
  ∧ ({ s with updated_at := some now } : Student).age = s.age
  ∧ ({ s with updated_at := some now } : Student).magic_affinity
      = s.magic_affinity
  ∧ ({ s with updated_at := some now } : Student).grimoire_cover
      = s.grimoire_cover
  ∧ ({ s with updated_at := some now } : Student).is_active = s.is_active
  ∧ ({ s with updated_at := some now } : Student).created_at = s.created_at
  ∧ ({ s with updated_at := some now } : Student).updated_at = some now
  ∧ (∀ t, s.updated_at = some t → t < now)
  ∧ (∀ patch : StudentUpdate,
       StudentRepository.update_student db true studentId patch now
         = .ok (some (applyUpdateLoop s patch now),
                commitUpdate db (applyUpdateLoop s patch now)))
  ∧ (∀ patch : StudentUpdate,
       (applyUpdateLoop s patch now).first_name
           = patch.first_name.getD s.first_name
     ∧ (applyUpdateLoop s patch now).last_name
           = patch.last_name.getD s.last_name
     ∧ (applyUpdateLoop s patch now).magic_affinity
           = patch.magic_affinity.getD s.magic_affinity
     ∧ (applyUpdateLoop s patch now).id = s.id
     ∧ (applyUpdateLoop s patch now).user_id = s.user_id
     ∧ (applyUpdateLoop s patch now).identification = s.identification
     ∧ (applyUpdateLoop s patch now).age = s.age
     ∧ (applyUpdateLoop s patch now).grimoire_cover = s.grimoire_cover
     ∧ (applyUpdateLoop s patch now).is_active = s.is_active
     ∧ (applyUpdateLoop s patch now).created_at = s.created_at
     ∧ (applyUpdateLoop s patch now).updated_at = some now) :=
  ⟨update_student_found db studentId s {} now hfind,
   rfl, rfl, rfl, rfl, rfl, rfl, rfl, rfl, rfl, rfl, rfl, hnow,
   fun patch => update_student_found db studentId s patch now hfind,
   fun _ => ⟨rfl, rfl, rfl, rfl, rfl, rfl, rfl, rfl, rfl, rfl, rfl⟩⟩

/-- Witness for C3: updating the single stored student with the empty
patch at time 30 refreshes only `updated_at`. -/
theorem update_student_empty_patch_frame_witness :
    StudentRepository.update_student [mkStudent 1] true ⟨1⟩ {} 30
      = .ok (some { mkStudent 1 with updated_at := some 30 },
             commitUpdate [mkStudent 1]
               { mkStudent 1 with updated_at := some 30 }) :=
  (update_student_empty_patch_frame [mkStudent 1] ⟨1⟩ (mkStudent 1) 30
     (by decide)
     (by intro t ht; simp [mkStudent] at ht; omega)).1

/-- C4: the repository delete on an id with no stored record raises
`DatabaseException` (via `session.delete(None)`) and never returns
false; its only non-raising path — record found and commit succeeds —
returns true. -/
theorem delete_student_semantics (db : List Student) (commitOk : Bool)
    (studentId : IdSpecification) :
    (db.find? (fun r => r.id == studentId.value) = none →
      StudentRepository.delete_student db commitOk studentId
        = .error (.databaseException SAErr.unmappedInstanceError.str))
  ∧ (∀ b db2,
      StudentRepository.delete_student db commitOk studentId
        = .ok (b, db2) → b = true)
  ∧ (∀ s, db.find? (fun r => r.id == studentId.value) = some s →
      commitOk = true →
      StudentRepository.delete_student db commitOk studentId
        = .ok (true, db.filter (fun r => !(r.id == s.id)))) := by
  refine ⟨?_, ?_, ?_⟩
  · intro h
    exact delete_student_missing db commitOk studentId h
  · intro b db2 h
    cases hf : db.find? (fun r => r.id == studentId.value) with
    | none =>
        rw [delete_student_missing db commitOk studentId hf] at h
        simp at h
    | some s =>
        rw [delete_student_found db commitOk studentId s hf] at h
        cases commitOk with
        | true =>
            rw [if_pos rfl] at h
            simp at h
            exact h.1
        | false =>
            rw [if_neg (by simp)] at h
            simp at h
  · intro s hf hc
    subst hc
    rw [delete_student_found db true studentId s hf, if_pos rfl]

/-- Witness for C4: deleting id 1 from an empty store raises
`DatabaseException`. -/
theorem delete_student_semantics_witness :
    StudentRepository.delete_student [] true ⟨1⟩
      = .error (.databaseException SAErr.unmappedInstanceError.str) :=
  (delete_student_semantics [] true ⟨1⟩).1 rfl

/-- C6: repository create on a fresh positive sequence value commits
the inserted row, re-reads it by the newly assigned id and returns the
persisted row; the returned id is positive and a subsequent
`read_by_id` with it returns an equal record; a commit failure raises
`DatabaseException` and the caller receives no record at all. -/
theorem create_student_semantics (db : List Student) (nextId : Nat)
    (student : Student) (hpos : 0 < nextId)
    (hfresh : ∀ r ∈ db, r.id ≠ nextId) :
    (StudentRepository.create_student db true nextId student
       = .ok (some { student with id := nextId },
              db ++ [{ student with id := nextId }]))
  ∧ 0 < ({ student with id := nextId } : Student).id
  ∧ StudentRepository.read_by_id (db ++ [{ student with id := nextId }])
        ⟨nextId⟩ = .ok (some { student with id := nextId })
  ∧ StudentRepository.create_student db false nextId student
       = .error (.databaseException SAErr.operationalError.str) := by
  have hfind2 : (db ++ [{ student with id := nextId }]).find?
      (fun r => r.id == nextId) = some { student with id := nextId } := by
    refine list_find?_append_singleton _ db _ ?_ (by simp)
    intro x hx
    simp [hfresh x hx]
  have hread : StudentRepository.read_by_id
      (db ++ [{ student with id := nextId }]) ⟨nextId⟩
      = .ok (some { student with id := nextId }) := by
    rw [read_by_id_eq, hfind2]
  refine ⟨?_, hpos, hread, ?_⟩
  · simp [StudentRepository.create_student, sessionCommit, hread]
  · simp [StudentRepository.create_student, sessionCommit]

/-- Witness for C6: creating into an empty store with sequence value 1
returns the persisted row with id 1. -/
theorem create_student_semantics_witness :
    StudentRepository.create_student [] true 1 (mkStudent 0)
      = .ok (some { mkStudent 0 with id := 1 },
             [] ++ [{ mkStudent 0 with id := 1 }]) :=
  (create_student_semantics [] 1 (mkStudent 0) (by decide) (by simp)).1

/-- C8: `read_students` maps offset and limit directly onto skipping
`offset` stored rows and returning at most `limit` of the remainder;
on a table of 5 rows, offset 0 with limit 2 yields exactly 2 rows and
offset 4 with limit 2 yields exactly 1 row. -/
theorem read_students_offset_limit (db : List Student)
    (offset limit : Nat) :
    StudentRepository.read_students db offset limit
      = .ok ((db.drop offset).take limit)
  ∧ ((db.drop offset).take limit).length = min limit (db.length - offset)
  ∧ (db.length = 5 →
       ((db.drop 0).take 2).length = 2 ∧ ((db.drop 4).take 2).length = 1) := by
  refine ⟨rfl, ?_, ?_⟩
  · rw [List.length_take, List.length_drop]
  · intro h5
    constructor
    · rw [List.length_take, List.length_drop, h5]
      decide
    · rw [List.length_take, List.length_drop, h5]
      decide

/-- Witness for C8: the five-row sample table returns 2 rows at
offset 0 / limit 2 and 1 row at offset 4 / limit 2. -/
theorem read_students_offset_limit_witness :
    ((sampleDb.drop 0).take 2).length = 2
  ∧ ((sampleDb.drop 4).take 2).length = 1 :=
  (read_students_offset_limit sampleDb 0 2).2.2 (by decide)

/-- C5: every service operation re-raises a repository
`DatabaseException` as a `ServiceException` wrapping the same message;
the single exception to that pattern is get-by-id on a `None` read
result (absence, a non-error at the repository layer), which raises
`NotFoundException` instead — the non-read operations never produce a
`NotFoundException` from a successful repository outcome. -/
theorem service_exception_translation (msg : String)
    (studentId userId now : Nat) :
    StudentService.get_student_by_id studentId
        (.error (.databaseException msg)) = .error (.serviceException msg)
  ∧ StudentService.get_all_students (.error (.databaseException msg))
      = .error (.serviceException msg)
  ∧ StudentService.create_student (.error (.databaseException msg))
      = .error (.serviceException msg)
  ∧ StudentService.update_student (.error (.databaseException msg))
      = .error (.serviceException msg)
  ∧ StudentService.delete_student now (.error (.databaseException msg))
      = .error (.serviceException msg)
  ∧ UserService.get_user_by_id userId (.error (.databaseException msg))
      = .error (.serviceException msg)
  ∧ StudentService.get_student_by_id studentId (.ok none)
      = .error (.notFoundException
          ("Student with id " ++ toString studentId ++
           " not found in the system."))
  ∧ UserService.get_user_by_id userId (.ok none)
      = .error (.notFoundException
          ("User with id " ++ toString userId ++
           " not found in the system."))
  ∧ (∀ db : List Student,
       db.find? (fun r => r.id == studentId) = none →
       StudentService.get_student_by_id studentId
           (StudentRepository.read_by_id db ⟨studentId⟩)
         = .error (.notFoundException
             ("Student with id " ++ toString studentId ++
              " not found in the system.")))
  ∧ (∀ created : Option Student,
       StudentService.create_student (.ok created)
         = .ok (model_to_response studentToResponse created))
  ∧ (∀ updated : Option Student,
       StudentService.update_student (.ok updated)
         = .ok (model_to_response studentToResponse updated))
  ∧ (∀ deleted : Bool,
       StudentService.delete_student now (.ok deleted)
         = .ok ⟨deleted, now⟩) := by
  refine ⟨rfl, rfl, rfl, rfl, rfl, rfl, rfl, rfl, ?_, fun _ => rfl,
          fun _ => rfl, fun _ => rfl⟩
  intro db h
  rw [read_by_id_eq, h]
  rfl

/-- Witness for C5: on an empty store, getting student 7 surfaces the
service-level `NotFoundException` even though the repository read
itself returned a non-error `None`. -/
theorem service_exception_translation_witness :
    StudentService.get_student_by_id 7
        (StudentRepository.read_by_id [] ⟨7⟩)
      = .error (.notFoundException
          ("Student with id " ++ toString 7 ++
           " not found in the system.")) :=
  ((service_exception_translation "boom" 7 7 3).2.2.2.2.2.2.2.2.1) [] rfl
